import Mathlib

/-!
Verification of the xGoalPro Match Outcome Prediction Engine.

Shallow embedding of the prediction pipeline of the xGoalPro repository:
the prediction stores (`SQLitePredictionStorage` / `PostgresPredictionStorage`),
the retry decorator `retry_on_connection_error`, and the pipeline model
`PredictionModel` (feature extraction, ensemble inference, Poisson outcome
probabilities, match fetching).  Python floats are modelled as exact rationals
where only field-by-field bookkeeping matters and as real numbers where the
Poisson analysis needs `Real.exp`; a SQL table is a list of rows; an async
method is a pure function from its inputs (including the modelled upstream
responses) to its result.
-/

namespace XGoalPro

/-- Row of the `predictions` relation, as created by the schema-creation SQL of
`PostgresPredictionStorage.py` / `SQLitePredictionStorage.py`: columns
`match_id, model, home_id, home_name, home_xg, away_id, away_name, away_xg,
home_p, draw_p, away_p, real_home_score DEFAULT -1, real_away_score DEFAULT -1`
with `UNIQUE(match_id, model)`.  The surrogate `id` column plays no role in any
claim and is omitted. -/
structure PredictionRow where
  match_id : ℤ
  model : String
  home_id : ℤ
  home_name : String
  home_xg : ℚ
  away_id : ℤ
  away_name : String
  away_xg : ℚ
  home_p : ℚ
  draw_p : ℚ
  away_p : ℚ
  real_home_score : ℤ
  real_away_score : ℤ
deriving DecidableEq, Repr

/-- A row conflicts with the `UNIQUE(match_id, model)` constraint when a stored
row already carries the same `(match_id, model)` pair. -/
def row_conflicts (r : PredictionRow) (mid : ℤ) (model : String) : Bool :=
  r.match_id == mid && r.model == model

/-- Embedding of `SQLitePredictionStorage.insert_prediction` (lines 55-79):
the plain `INSERT` raises `aiosqlite.IntegrityError` when `(match_id, model)`
already exists, which the method catches and turns into `False` with no write;
otherwise the row is appended (scores defaulting to `-1`) and it returns
`True`.  Result is `(returned bool, table after the call)`. -/
def sqlite_insert_prediction (db : List PredictionRow) (mid : ℤ) (model : String)
    (home_id : ℤ) (home_xg : ℚ) (away_id : ℤ) (away_xg : ℚ)
    (home_p : ℚ) (draw_p : ℚ) (away_p : ℚ)
    (home_name : String) (away_name : String) : Bool × List PredictionRow :=
  if db.any (fun r => row_conflicts r mid model) then
    (false, db)
  else
    (true, db ++ [⟨mid, model, home_id, home_name, home_xg,
                   away_id, away_name, away_xg, home_p, draw_p, away_p, -1, -1⟩])

/-- Embedding of `PostgresPredictionStorage.insert_prediction` (lines 104-136):
the statement is `INSERT ... ON CONFLICT (match_id, model) DO NOTHING`, so a
duplicate key is silently swallowed by the database and `UniqueViolationError`
is never raised; the method therefore reaches `return True` on every
non-connection-failing call, duplicate or not, while the table is only changed
when the key was new. -/
def postgres_insert_prediction (db : List PredictionRow) (mid : ℤ) (model : String)
    (home_id : ℤ) (home_xg : ℚ) (away_id : ℤ) (away_xg : ℚ)
    (home_p : ℚ) (draw_p : ℚ) (away_p : ℚ)
    (home_name : String) (away_name : String) : Bool × List PredictionRow :=
  if db.any (fun r => row_conflicts r mid model) then
    (true, db)
  else
    (true, db ++ [⟨mid, model, home_id, home_name, home_xg,
                   away_id, away_name, away_xg, home_p, draw_p, away_p, -1, -1⟩])

/-- Embedding of `update_prediction_with_score` (identical SQL in both stores):
`UPDATE predictions SET real_home_score = ?, real_away_score = ? WHERE
match_id = ?`, returning whether the affected-row count is positive.  Result is
`(returned bool, table after the call)`. -/
def update_prediction_with_score (db : List PredictionRow)
    (mid : ℤ) (home_score : ℤ) (away_score : ℤ) : Bool × List PredictionRow :=
  (decide (0 < (db.filter (fun r => r.match_id == mid)).length),
   db.map fun r =>
     if r.match_id == mid then
       { r with real_home_score := home_score, real_away_score := away_score }
     else r)

/-- Embedding of `get_elo` (both stores): `SELECT elo FROM eloscores WHERE
name = ?` takes the first row whose name matches, and the method returns its
value, or `1500.0` when no row matched.  The ratings relation is a list of
`(name, elo)` pairs. -/
def get_elo (table : List (String × ℚ)) (team : String) : ℚ :=
  match table.find? (fun p => p.1 == team) with
  | some p => p.2
  | none => 1500

/-! ### Theorems for the prediction store claims -/

/-- C1: the claim says that on every prediction store a duplicate
`insert_prediction` call returns `False`.  The Postgres store violates this:
its `ON CONFLICT DO NOTHING` statement never raises `UniqueViolationError`, so
the `except` branch is dead and the duplicate call returns `True`, even though
the stored row is indeed left exactly as the first call wrote it.  This theorem
evaluates both stores on the failing input — first call with
`(match_id, model) = (1, "10")`, then a second call with the same key and
different values: SQLite returns `true` then `false` and keeps the first row
only; Postgres keeps the first row too but returns `true` again, contradicting
its own docstring. -/
theorem C1_postgres_duplicate_insert_returns_true :
    (sqlite_insert_prediction [] 1 "10" 7 2 8 1 1 0 0 "H" "A").1 = true ∧
    (postgres_insert_prediction [] 1 "10" 7 2 8 1 1 0 0 "H" "A").2 =
      (sqlite_insert_prediction [] 1 "10" 7 2 8 1 1 0 0 "H" "A").2 ∧
    (sqlite_insert_prediction
      (sqlite_insert_prediction [] 1 "10" 7 2 8 1 1 0 0 "H" "A").2
      1 "10" 9 3 10 4 0 1 0 "X" "Y") =
      (false, (sqlite_insert_prediction [] 1 "10" 7 2 8 1 1 0 0 "H" "A").2) ∧
    (postgres_insert_prediction
      (postgres_insert_prediction [] 1 "10" 7 2 8 1 1 0 0 "H" "A").2
      1 "10" 9 3 10 4 0 1 0 "X" "Y") =
      (true, (postgres_insert_prediction [] 1 "10" 7 2 8 1 1 0 0 "H" "A").2) := by
  decide

/-- C8: `update_prediction_with_score` returns `True` exactly when at least one
stored row carries the given `match_id` (matching by `match_id` alone, across
all model variants); when no row matches it leaves the table unchanged; the
table keeps its length, and the row at each position is the original row with
both real-score fields set when its `match_id` matches, and the original row
verbatim otherwise. -/
theorem C8_update_prediction_with_score_spec (db : List PredictionRow)
    (mid hsc asc : ℤ) :
    ((update_prediction_with_score db mid hsc asc).1 = true ↔
      ∃ r ∈ db, r.match_id = mid) ∧
    ((∀ r ∈ db, r.match_id ≠ mid) →
      (update_prediction_with_score db mid hsc asc).2 = db) ∧
    (update_prediction_with_score db mid hsc asc).2.length = db.length ∧
    (∀ i : ℕ, ∀ h1 : i < db.length,
      ∀ h2 : i < (update_prediction_with_score db mid hsc asc).2.length,
      ((update_prediction_with_score db mid hsc asc).2.get ⟨i, h2⟩) =
        (if (db.get ⟨i, h1⟩).match_id = mid then
          { db.get ⟨i, h1⟩ with real_home_score := hsc, real_away_score := asc }
        else db.get ⟨i, h1⟩)) := by
  refine ⟨?_, ?_, ?_, ?_⟩
  · simp only [update_prediction_with_score, decide_eq_true_eq,
      List.length_pos_iff_exists_mem]
    constructor
    · rintro ⟨r, hr⟩
      rw [List.mem_filter] at hr
      exact ⟨r, hr.1, by simpa using hr.2⟩
    · rintro ⟨r, hr, hmid⟩
      exact ⟨r, List.mem_filter.mpr ⟨hr, by simpa using hmid⟩⟩
  · intro hall
    show db.map _ = db
    conv_rhs => rw [← List.map_id db]
    refine List.map_congr_left ?_
    intro r hr
    have h : ¬ r.match_id = mid := hall r hr
    simp [h]
  · simp [update_prediction_with_score]
  · intro i h1 h2
    simp only [update_prediction_with_score, List.get_eq_getElem, List.getElem_map]
    by_cases h : (db[i].match_id = mid)
    · simp [h]
    · simp [h]

/-- C9: `get_elo` returns the stored rating when the team has a row (the first
matching row, unique when the table binds each name once) and the sentinel
`1500.0` when no row carries the name; being a total function of the table and
name, it raises nothing on unknown input. -/
theorem C9_get_elo_spec (table : List (String × ℚ)) (team : String) :
    (∀ v : ℚ, table.Pairwise (fun p q => p.1 ≠ q.1) → (team, v) ∈ table →
      get_elo table team = v) ∧
    ((∀ p ∈ table, p.1 ≠ team) → get_elo table team = 1500) := by
  constructor
  · intro v hpw hmem
    induction table with
    | nil => cases hmem
    | cons hd tl ih =>
      rw [List.pairwise_cons] at hpw
      rcases List.mem_cons.mp hmem with heq | htl
      · subst heq
        simp [get_elo]
      · have hne : hd.1 ≠ team := by
          have := hpw.1 (team, v) htl
          simpa using this
        have : (hd.1 == team) = false := by simpa using hne
        simpa [get_elo, List.find?, this] using ih hpw.2 htl
  · intro hall
    have : table.find? (fun p => p.1 == team) = none := by
      rw [List.find?_eq_none]
      intro p hp
      simpa using hall p hp
    simp [get_elo, this]

/-! ### Resilient storage gateway: `retry_on_connection_error` -/

/-- Outcome of one attempt of a coroutine wrapped by
`retry_on_connection_error`: a normal return, an exception of the retried
connection class (`asyncpg.PostgresConnectionError` / `ConnectionError`), or
any other exception, which the decorator does not catch. -/
inductive AttemptOutcome (ε α : Type) where
  | ok (a : α)
  | connError (e : ε)
  | otherError (e : ε)
deriving DecidableEq, Repr

/-- Result of a wrapped call as seen by the caller: a returned value, an
uncaught non-connection exception propagating out of the loop, or the final
`raise last_exception` after the loop has exhausted all attempts (`none` only
in the degenerate `max_retries = 0` case, where `last_exception` is still
Python `None`). -/
inductive RetryResult (ε α : Type) where
  | success (a : α)
  | raised (e : ε)
  | exhaustedRaise (e : Option ε)
deriving DecidableEq, Repr

/-- Embedding of the `for attempt in range(1, max_retries + 1)` loop of
`retry_on_connection_error` (PostgresPredictionStorage.py lines 14-36).
`op attempt` is what the wrapped coroutine does on that attempt; `remaining`
counts the loop iterations left; `last` is `last_exception`; `delays` gathers
the arguments passed to `asyncio.sleep`, which the loop only calls while
`attempt < max_retries`. -/
def retry_loop {ε α : Type} (op : ℕ → AttemptOutcome ε α)
    (max_retries : ℕ) (delay : ℚ) :
    ℕ → ℕ → Option ε → List ℚ → RetryResult ε α × List ℚ
  | 0, _, last, delays => (.exhaustedRaise last, delays)
  | remaining + 1, attempt, _, delays =>
    match op attempt with
    | .ok a => (.success a, delays)
    | .otherError e => (.raised e, delays)
    | .connError e =>
      retry_loop op max_retries delay remaining (attempt + 1) (some e)
        (if attempt < max_retries then delays ++ [delay * (attempt : ℚ)] else delays)

/-- Embedding of the whole decorated call: run the loop from attempt 1 with
`max_retries` iterations, no recorded exception and no elapsed sleeps.  The
source defaults are `max_retries = 3`, `delay = 1.0`. -/
def retry_on_connection_error {ε α : Type} (op : ℕ → AttemptOutcome ε α)
    (max_retries : ℕ := 3) (delay : ℚ := 1) : RetryResult ε α × List ℚ :=
  retry_loop op max_retries delay max_retries 1 none []

/-- C3: with `max_retries = 3` and base delay `d`, an operation that raises a
transient connection-class error on attempts 1 and 2 and succeeds on attempt 3
makes the wrapper return that success after exactly the two sleeps `d * 1` and
`d * 2`; an operation that raises a connection-class error on every attempt
makes the wrapper re-raise the last such error (the attempt-3 one) after
exhaustion. -/
theorem C3_retry_gateway_spec {ε α : Type} (op : ℕ → AttemptOutcome ε α)
    (d : ℚ) (e1 e2 : ε) (a : α) :
    (op 1 = .connError e1 → op 2 = .connError e2 → op 3 = .ok a →
      retry_on_connection_error op 3 d = (.success a, [d * 1, d * 2])) ∧
    (∀ es : ℕ → ε, (∀ k, 1 ≤ k → k ≤ 3 → op k = .connError (es k)) →
      retry_on_connection_error op 3 d =
        (.exhaustedRaise (some (es 3)), [d * 1, d * 2])) := by
  constructor
  · intro h1 h2 h3
    simp [retry_on_connection_error, retry_loop, h1, h2, h3]
  · intro es hes
    have h1 := hes 1 (by norm_num) (by norm_num)
    have h2 := hes 2 (by norm_num) (by norm_num)
    have h3 := hes 3 (by norm_num) (by norm_num)
    simp [retry_on_connection_error, retry_loop, h1, h2, h3]

/-- Concrete operation for the C3 witness: connection errors on attempts 1 and
2, success on attempt 3. -/
def retry_op_ok : ℕ → AttemptOutcome ℕ ℕ := fun k =>
  if k = 1 then .connError 7 else if k = 2 then .connError 8 else .ok 5

/-- Concrete operation for the C3 witness: a connection error on every
attempt. -/
def retry_op_fail : ℕ → AttemptOutcome ℕ ℕ := fun _ => .connError 9

/-- Witness for C3 at the concrete operations `retry_op_ok` and
`retry_op_fail` with base delay 1. -/
theorem C3_retry_gateway_spec_witness :
    retry_on_connection_error retry_op_ok 3 1 = (.success 5, [1 * 1, 1 * 2]) ∧
    retry_on_connection_error retry_op_fail 3 1 =
      (.exhaustedRaise (some 9), [1 * 1, 1 * 2]) :=
  ⟨(C3_retry_gateway_spec retry_op_ok 1 7 8 5).1 rfl rfl rfl,
   (C3_retry_gateway_spec retry_op_fail 1 7 8 5).2 (fun _ => 9)
     (fun _ _ _ => rfl)⟩

/-! ### Pipeline boundary of `predict_scores` -/

/-- One run of the body of `predict_scores` as seen from its exception
boundary: either every stage completes and the predictions dictionary is
produced, or some stage raises `aiohttp.ClientResponseError` with an HTTP
status, or some stage raises any other exception carrying a message. -/
inductive PipelineOutcome (α : Type) where
  | completes (p : α)
  | clientResponseError (status : ℕ) (msg : String)
  | otherFailure (msg : String)
deriving DecidableEq, Repr

/-- Fixed guidance message returned on an HTTP 429 response. -/
def rate_limit_message : String :=
  "Too many requests – you can make up to 10 API calls per minute."

/-- Embedding of the boundary of `PredictionModel.predict_scores` (lines
240-307).  The `try` body returns `(True, predictions)`; the first `except`
catches `aiohttp.ClientResponseError` and returns the fixed guidance pair only
when `e.status == 429` — for any other status it falls off the end of the
`except` block, so the method returns Python `None` (modelled `none`); the
second `except` catches every other exception and returns `(False, [str(e)])`.
The payload side of the pair is `predictions ⊕ message list`. -/
def predict_scores {α : Type} (out : PipelineOutcome α) :
    Option (Bool × (α ⊕ List String)) :=
  match out with
  | .completes p => some (true, Sum.inl p)
  | .clientResponseError status _ =>
    if status == 429 then some (false, Sum.inr [rate_limit_message]) else none
  | .otherFailure msg => some (false, Sum.inr [msg])

/-- C2 counterexample: the claim says every call of `predict_scores` returns a
two-element `(ok, payload_or_messages)` pair, but a stage raising
`aiohttp.ClientResponseError` with status 500 makes the method return `None`
— no pair at all — because the 429 test fails and the `except` block ends
without a `return`. -/
theorem C2_predict_scores_none_counterexample :
    predict_scores (α := Unit)
      (PipelineOutcome.clientResponseError 500 "Internal Server Error") =
      none := by
  rfl

/-- C2 (amended): `predict_scores` never lets an exception escape and returns
`(True, predictions)` on success, `(False, [fixed guidance])` on an HTTP 429
response, and `(False, [message])` on any non-HTTP-response failure; but on an
HTTP response error whose status is not 429 it returns `None` instead of a
pair. -/
theorem C2_predict_scores_boundary {α : Type} (out : PipelineOutcome α) :
    (∀ p, out = .completes p → predict_scores out = some (true, Sum.inl p)) ∧
    (∀ s m, out = .clientResponseError s m → s = 429 →
      predict_scores out = some (false, Sum.inr [rate_limit_message])) ∧
    (∀ s m, out = .clientResponseError s m → s ≠ 429 →
      predict_scores out = none) ∧
    (∀ m, out = .otherFailure m →
      predict_scores out = some (false, Sum.inr [m])) := by
  refine ⟨?_, ?_, ?_, ?_⟩
  · rintro p rfl; rfl
  · rintro s m rfl rfl; rfl
  · rintro s m rfl hs
    have : (s == 429) = false := by simpa using hs
    simp [predict_scores, this]
  · rintro m rfl; rfl

/-- Witness for C2 at one concrete outcome of every kind. -/
theorem C2_predict_scores_boundary_witness :
    predict_scores (PipelineOutcome.completes (42 : ℕ)) =
      some (true, Sum.inl 42) ∧
    predict_scores (α := ℕ) (PipelineOutcome.clientResponseError 429 "x") =
      some (false, Sum.inr [rate_limit_message]) ∧
    predict_scores (α := ℕ) (PipelineOutcome.clientResponseError 503 "x") =
      none ∧
    predict_scores (α := ℕ) (PipelineOutcome.otherFailure "boom") =
      some (false, Sum.inr ["boom"]) :=
  ⟨(C2_predict_scores_boundary (PipelineOutcome.completes 42)).1 42 rfl,
   (C2_predict_scores_boundary
      (PipelineOutcome.clientResponseError 429 "x")).2.1 429 "x" rfl rfl,
   (C2_predict_scores_boundary
      (PipelineOutcome.clientResponseError 503 "x")).2.2.1 503 "x" rfl
     (by norm_num),
   (C2_predict_scores_boundary
      (PipelineOutcome.otherFailure "boom")).2.2.2 "boom" rfl⟩

/-! ### `fetch_matches` result truncation -/

/-- Team object of an upstream match payload as used by `fetch_matches`:
`id`, `shortName`, `crest` URL. -/
structure TeamRef where
  id : ℤ
  shortName : String
  crest : String
deriving DecidableEq, Repr

/-- One entry of the upstream `matches` array as used by `fetch_matches`. -/
structure UpstreamMatch where
  id : ℤ
  homeTeam : TeamRef
  awayTeam : TeamRef
  utcDate : String
  competitionName : String
deriving DecidableEq, Repr

/-- One dictionary of the `results` list built by `fetch_matches`; emblem
bytes are modelled by an arbitrary type `β`. -/
structure MatchCard (β : Type) where
  id : ℤ
  home_name : String
  home_emblem : β
  away_name : String
  away_emblem : β
  date : String
  competition : String
  home_id : ℤ
  away_id : ℤ

/-- Embedding of the success path of `PredictionModel.fetch_matches` (lines
137-196): every entry of the upstream `matches` array is turned into a result
dictionary (both emblems fetched through `__fetch_image`, modelled as a
function from URL to bytes), and the method returns `results[:20]`. -/
def fetch_matches_results {β : Type} (fetch_image : String → β)
    (matches_data : List UpstreamMatch) : List (MatchCard β) :=
  (matches_data.map fun m =>
    ⟨m.id, m.homeTeam.shortName, fetch_image m.homeTeam.crest,
     m.awayTeam.shortName, fetch_image m.awayTeam.crest,
     m.utcDate, m.competitionName, m.homeTeam.id, m.awayTeam.id⟩).take 20

/-- C10: a successful `fetch_matches` call returns at most 20 matches; its
result length is exactly `min 20 (number of upstream matches)`, so when the
upstream response supplies more than 20 matches the list is truncated to
20. -/
theorem C10_fetch_matches_at_most_20 {β : Type} (fetch_image : String → β)
    (matches_data : List UpstreamMatch) :
    (fetch_matches_results fetch_image matches_data).length =
      min 20 matches_data.length ∧
    (fetch_matches_results fetch_image matches_data).length ≤ 20 := by
  constructor
  · simp [fetch_matches_results]
  · simp [fetch_matches_results]

/-- Concrete stored row for the C8 witness (match_id 4). -/
def c8_row : PredictionRow := ⟨4, "10", 7, "H", 2, 8, "A", 1, 1, 0, 0, -1, -1⟩

/-- Witness for C8: updating a non-existent match_id 5 on a store holding only
match_id 4 leaves the store unchanged. -/
theorem C8_update_prediction_with_score_spec_witness :
    (update_prediction_with_score [c8_row] 5 3 2).2 = [c8_row] :=
  (C8_update_prediction_with_score_spec [c8_row] 5 3 2).2.1 (by decide)

/-- Witness for C9: a stored team resolves to its rating, an unknown team to
the sentinel 1500. -/
theorem C9_get_elo_spec_witness :
    get_elo [("Arsenal", 1600)] "Arsenal" = 1600 ∧
    get_elo [("Arsenal", 1600)] "UnknownTeamXYZ" = 1500 :=
  ⟨(C9_get_elo_spec [("Arsenal", 1600)] "Arsenal").1 1600
      (by simp) (by simp),
   (C9_get_elo_spec [("Arsenal", 1600)] "UnknownTeamXYZ").2 (by decide)⟩

/-! ### Outcome probability engine: independent Poisson scoreline model -/

/-- Poisson probability mass function as used through `scipy.stats.poisson`:
`pmf(k, mu) = exp(-mu) * mu^k / k!`. -/
noncomputable def poisson_pmf (lam : ℝ) (k : ℕ) : ℝ :=
  Real.exp (-lam) * lam ^ k / (Nat.factorial k)

/-- Embedding of `PredictionModel.__match_probabilities` (lines 327-343): a
`(max_goals+1) × (max_goals+1)` matrix filled cell by cell with
`poisson.pmf(i, l_home) * poisson.pmf(j, l_away)`. -/
noncomputable def match_probabilities (l_home l_away : ℝ) (max_goals : ℕ := 10) :
    Fin (max_goals + 1) → Fin (max_goals + 1) → ℝ :=
  fun i j => poisson_pmf l_home (i : ℕ) * poisson_pmf l_away (j : ℕ)

/-- Sum of the strictly-lower-triangular part of a square matrix, as computed
by `np.tril(probs, -1).sum()`: cells with row index above column index. -/
noncomputable def np_tril_sum {n : ℕ} (M : Fin n → Fin n → ℝ) : ℝ :=
  ∑ i : Fin n, ∑ j : Fin n, if (j : ℕ) < (i : ℕ) then M i j else 0

/-- Sum of the strictly-upper-triangular part of a square matrix, as computed
by `np.triu(probs, 1).sum()`: cells with column index above row index. -/
noncomputable def np_triu_sum {n : ℕ} (M : Fin n → Fin n → ℝ) : ℝ :=
  ∑ i : Fin n, ∑ j : Fin n, if (i : ℕ) < (j : ℕ) then M i j else 0

/-- Diagonal sum of a square matrix, as computed by `np.trace(probs)`. -/
noncomputable def np_trace {n : ℕ} (M : Fin n → Fin n → ℝ) : ℝ :=
  ∑ i : Fin n, M i i

/-- `p_home_win` of `__make_prediction` (line 428):
`np.tril(probs, -1).sum()`. -/
noncomputable def p_home_win (l_home l_away : ℝ) (max_goals : ℕ := 10) : ℝ :=
  np_tril_sum (match_probabilities l_home l_away max_goals)

/-- `p_away_win` of `__make_prediction` (line 429):
`np.triu(probs, 1).sum()`. -/
noncomputable def p_away_win (l_home l_away : ℝ) (max_goals : ℕ := 10) : ℝ :=
  np_triu_sum (match_probabilities l_home l_away max_goals)

/-- `p_draw` of `__make_prediction` (line 430): `np.trace(probs)`. -/
noncomputable def p_draw (l_home l_away : ℝ) (max_goals : ℕ := 10) : ℝ :=
  np_trace (match_probabilities l_home l_away max_goals)

theorem poisson_pmf_nonneg {lam : ℝ} (h : 0 ≤ lam) (k : ℕ) :
    0 ≤ poisson_pmf lam k := by
  unfold poisson_pmf
  positivity

/-- A truncated Poisson mass sum never exceeds 1: the series
`∑ lam^k / k!` is bounded by `exp lam`. -/
theorem poisson_sum_le_one {lam : ℝ} (h : 0 ≤ lam) (n : ℕ) :
    ∑ k ∈ Finset.range n, poisson_pmf lam k ≤ 1 := by
  have hsum : ∑ k ∈ Finset.range n, poisson_pmf lam k
      = Real.exp (-lam) * ∑ k ∈ Finset.range n, lam ^ k / (Nat.factorial k) := by
    rw [Finset.mul_sum]
    refine Finset.sum_congr rfl fun k _ => ?_
    unfold poisson_pmf
    ring
  rw [hsum]
  calc Real.exp (-lam) * ∑ k ∈ Finset.range n, lam ^ k / (Nat.factorial k)
      ≤ Real.exp (-lam) * Real.exp lam :=
        mul_le_mul_of_nonneg_left (Real.sum_le_exp_of_nonneg h n)
          (Real.exp_pos _).le
    _ = 1 := by rw [← Real.exp_add]; simp

/-- The three triangular sums partition the full matrix sum. -/
theorem tri_partition {n : ℕ} (M : Fin n → Fin n → ℝ) :
    np_tril_sum M + np_trace M + np_triu_sum M
      = ∑ i : Fin n, ∑ j : Fin n, M i j := by
  unfold np_tril_sum np_trace np_triu_sum
  have hdiag : ∀ i : Fin n, (∑ j : Fin n, if j = i then M i j else 0) = M i i := by
    intro i
    simp
  calc (∑ i : Fin n, ∑ j : Fin n, if (j : ℕ) < (i : ℕ) then M i j else 0)
        + (∑ i : Fin n, M i i)
        + (∑ i : Fin n, ∑ j : Fin n, if (i : ℕ) < (j : ℕ) then M i j else 0)
      = ∑ i : Fin n, ((∑ j : Fin n, if (j : ℕ) < (i : ℕ) then M i j else 0)
          + (∑ j : Fin n, if j = i then M i j else 0)
          + (∑ j : Fin n, if (i : ℕ) < (j : ℕ) then M i j else 0)) := by
        rw [Finset.sum_add_distrib, Finset.sum_add_distrib]
        congr 1
        congr 1
        exact (Finset.sum_congr rfl fun i _ => (hdiag i).symm)
    _ = ∑ i : Fin n, ∑ j : Fin n, M i j := by
        refine Finset.sum_congr rfl fun i _ => ?_
        rw [← Finset.sum_add_distrib, ← Finset.sum_add_distrib]
        refine Finset.sum_congr rfl fun j _ => ?_
        by_cases h1 : (j : ℕ) < (i : ℕ)
        · have h2 : ¬ j = i := fun he => by subst he; exact absurd h1 (lt_irrefl _)
          have h3 : ¬ (i : ℕ) < (j : ℕ) := by omega
          simp [h1, h2, h3]
        · by_cases h2 : j = i
          · subst h2
            simp
          · have hne : (j : ℕ) ≠ (i : ℕ) := fun hv => h2 (Fin.ext hv)
            have h3 : (i : ℕ) < (j : ℕ) := by omega
            simp [h1, h2, h3]

/-- C4: every cell `(i, j)` of the scoreline matrix is
`Poisson_pmf(i; home_xg) * Poisson_pmf(j; away_xg)`; `p_home_win` sums the
cells with `i > j`, `p_draw` the diagonal, `p_away_win` the cells with
`i < j`; and for non-negative expected goals the three probabilities sum to at
most 1. -/
theorem C4_outcome_probability_engine_spec (l_home l_away : ℝ) (max_goals : ℕ)
    (hh : 0 ≤ l_home) (ha : 0 ≤ l_away) :
    (∀ i j : Fin (max_goals + 1),
      match_probabilities l_home l_away max_goals i j =
        poisson_pmf l_home (i : ℕ) * poisson_pmf l_away (j : ℕ)) ∧
    p_home_win l_home l_away max_goals =
      (∑ i : Fin (max_goals + 1), ∑ j : Fin (max_goals + 1),
        if (j : ℕ) < (i : ℕ) then
          poisson_pmf l_home (i : ℕ) * poisson_pmf l_away (j : ℕ) else 0) ∧
    p_draw l_home l_away max_goals =
      (∑ i : Fin (max_goals + 1),
        poisson_pmf l_home (i : ℕ) * poisson_pmf l_away (i : ℕ)) ∧
    p_away_win l_home l_away max_goals =
      (∑ i : Fin (max_goals + 1), ∑ j : Fin (max_goals + 1),
        if (i : ℕ) < (j : ℕ) then
          poisson_pmf l_home (i : ℕ) * poisson_pmf l_away (j : ℕ) else 0) ∧
    p_home_win l_home l_away max_goals + p_draw l_home l_away max_goals
      + p_away_win l_home l_away max_goals ≤ 1 := by
  refine ⟨fun i j => rfl, rfl, rfl, rfl, ?_⟩
  have hpart := tri_partition (match_probabilities l_home l_away max_goals)
  have htotal : (∑ i : Fin (max_goals + 1), ∑ j : Fin (max_goals + 1),
      match_probabilities l_home l_away max_goals i j)
      = (∑ k ∈ Finset.range (max_goals + 1), poisson_pmf l_home k)
        * (∑ k ∈ Finset.range (max_goals + 1), poisson_pmf l_away k) := by
    calc (∑ i : Fin (max_goals + 1), ∑ j : Fin (max_goals + 1),
          match_probabilities l_home l_away max_goals i j)
        = ∑ i : Fin (max_goals + 1),
            (poisson_pmf l_home (i : ℕ)
              * ∑ j : Fin (max_goals + 1), poisson_pmf l_away (j : ℕ)) := by
          refine Finset.sum_congr rfl fun i _ => ?_
          rw [Finset.mul_sum]
          exact rfl
      _ = (∑ i : Fin (max_goals + 1), poisson_pmf l_home (i : ℕ))
            * ∑ j : Fin (max_goals + 1), poisson_pmf l_away (j : ℕ) := by
          rw [Finset.sum_mul]
      _ = (∑ k ∈ Finset.range (max_goals + 1), poisson_pmf l_home k)
            * (∑ k ∈ Finset.range (max_goals + 1), poisson_pmf l_away k) := by
          rw [Fin.sum_univ_eq_sum_range, Fin.sum_univ_eq_sum_range]
  have hSh0 : 0 ≤ ∑ k ∈ Finset.range (max_goals + 1), poisson_pmf l_home k :=
    Finset.sum_nonneg fun k _ => poisson_pmf_nonneg hh k
  have hSa0 : 0 ≤ ∑ k ∈ Finset.range (max_goals + 1), poisson_pmf l_away k :=
    Finset.sum_nonneg fun k _ => poisson_pmf_nonneg ha k
  have hle : (∑ k ∈ Finset.range (max_goals + 1), poisson_pmf l_home k)
      * (∑ k ∈ Finset.range (max_goals + 1), poisson_pmf l_away k) ≤ 1 :=
    mul_le_one₀ (poisson_sum_le_one hh _) hSa0
      (poisson_sum_le_one ha _)
  show np_tril_sum _ + np_trace _ + np_triu_sum _ ≤ 1
  calc np_tril_sum (match_probabilities l_home l_away max_goals)
        + np_trace (match_probabilities l_home l_away max_goals)
        + np_triu_sum (match_probabilities l_home l_away max_goals)
      = ∑ i, ∑ j, match_probabilities l_home l_away max_goals i j := hpart
    _ = _ * _ := htotal
    _ ≤ 1 := hle

/-- Witness for C4 at `home_xg = 1`, `away_xg = 2`, `max_goals = 3`. -/
theorem C4_outcome_probability_engine_spec_witness :
    (0 : ℝ) ≤ 1 ∧ (0 : ℝ) ≤ 2 ∧
    p_home_win 1 2 3 + p_draw 1 2 3 + p_away_win 1 2 3 ≤ 1 :=
  ⟨by norm_num, by norm_num,
   (C4_outcome_probability_engine_spec 1 2 3
      (by norm_num) (by norm_num)).2.2.2.2⟩

/-- C6: with equal non-negative expected goals on both sides the engine
returns exactly equal home-win and away-win probabilities, for every
`max_goals` bound. -/
theorem C6_equal_xg_gives_equal_win_probabilities (lam : ℝ) (max_goals : ℕ)
    (_h : 0 ≤ lam) :
    p_home_win lam lam max_goals = p_away_win lam lam max_goals := by
  unfold p_home_win p_away_win np_tril_sum np_triu_sum
  conv_rhs => rw [Finset.sum_comm]
  refine Finset.sum_congr rfl fun i _ => ?_
  refine Finset.sum_congr rfl fun j _ => ?_
  by_cases hij : (j : ℕ) < (i : ℕ)
  · simp only [if_pos hij, match_probabilities, Matrix.of_apply]
    ring
  · simp [hij]

/-- Witness for C6 at `lam = 1`, `max_goals = 10`. -/
theorem C6_equal_xg_gives_equal_win_probabilities_witness :
    p_home_win 1 1 10 = p_away_win 1 1 10 :=
  C6_equal_xg_gives_equal_win_probabilities 1 10 (by norm_num)

/-! ### Ensemble predictor: `__make_prediction` expected goals -/

/-- One entry of the model registry `ml_models`: its two regression artifacts,
modelled by what each loaded artifact predicts on a (scaled) feature
vector. -/
structure MLModel where
  home : List ℚ → ℚ
  away : List ℚ → ℚ

/-- Embedding of the collection loop of `_run_prediction` inside
`PredictionModel.__make_prediction` (lines 409-417): walk the registry entries
in order paired with their positional selection flags (`code[i]`), and for each
selected entry run its home and away artifacts on the scaled vector, appending
the two scalars in registry order.  Defined on the positionally matched initial segment;
the source's behaviour when `code` is shorter than the registry is an
`IndexError` and out of scope here. -/
def collect_xg : List MLModel → List Bool → List ℚ → List ℚ × List ℚ
  | [], _, _ => ([], [])
  | _ :: _, [], _ => ([], [])
  | m :: ms, c :: cs, scaled =>
    let rest := collect_xg ms cs scaled
    if c then (m.home scaled :: rest.1, m.away scaled :: rest.2) else rest

/-- Arithmetic mean as computed by `np.array(l).mean()`: sum over length. -/
def np_mean (l : List ℚ) : ℚ := l.sum / l.length

/-- Embedding of the expected-goal part of `__make_prediction` (lines
388-425): scale the raw feature vector once through the shared pre-fit scaler,
collect every selected model's two outputs on the scaled vector, and take the
mean of the home collection and the mean of the away collection. -/
def make_prediction_xg (scaler : List ℚ → List ℚ) (models : List MLModel)
    (code : List Bool) (features : List ℚ) : ℚ × ℚ :=
  (np_mean (collect_xg models code (scaler features)).1,
   np_mean (collect_xg models code (scaler features)).2)

/-- Registry entries whose selection flag is set, in registry order. -/
def selected_models (models : List MLModel) (code : List Bool) : List MLModel :=
  ((models.zip code).filter (fun p => p.2)).map Prod.fst

/-- The collection loop gathers exactly the selected models' outputs on the
scaled vector, in registry order. -/
theorem collect_xg_eq (scaled : List ℚ) (models : List MLModel) :
    ∀ code : List Bool,
    collect_xg models code scaled =
      ((selected_models models code).map (fun m => m.home scaled),
       (selected_models models code).map (fun m => m.away scaled)) := by
  induction models with
  | nil =>
    intro code
    simp [collect_xg, selected_models]
  | cons m ms ih =>
    intro code
    cases code with
    | nil => simp [collect_xg, selected_models]
    | cons c cs =>
      have ih2 := ih cs
      cases c
      · show collect_xg ms cs scaled = _
        rw [ih2]
        simp [selected_models]
      · show (m.home scaled :: (collect_xg ms cs scaled).1,
              m.away scaled :: (collect_xg ms cs scaled).2) = _
        rw [ih2]
        simp [selected_models]

/-- Constant two-artifact model A of the claim: home 1.0, away 0.5. -/
def model_A : MLModel := ⟨fun _ => 1, fun _ => 1/2⟩

/-- Constant two-artifact model B of the claim: home 2.0, away 1.5. -/
def model_B : MLModel := ⟨fun _ => 2, fun _ => 3/2⟩

/-- C5: with at least one flag set, the ensemble applies the shared scaler to
the raw feature vector once, runs each selected model's home and away
artifacts on the scaled vector, and returns the arithmetic means of the
collected home and away outputs; in particular two selected models yielding
`(1.0, 0.5)` and `(2.0, 1.5)` produce exactly `(1.5, 1.0)`. -/
theorem C5_ensemble_mean_spec (scaler : List ℚ → List ℚ)
    (models : List MLModel) (code : List Bool) (features : List ℚ)
    (_hsel : selected_models models code ≠ []) :
    make_prediction_xg scaler models code features =
      (np_mean ((selected_models models code).map
        (fun m => m.home (scaler features))),
       np_mean ((selected_models models code).map
        (fun m => m.away (scaler features)))) ∧
    make_prediction_xg scaler [model_A, model_B] [true, true] features =
      (3/2, 1) := by
  constructor
  · unfold make_prediction_xg
    rw [collect_xg_eq]
  · unfold make_prediction_xg
    rw [collect_xg_eq]
    simp [selected_models, model_A, model_B, np_mean]
    norm_num

/-- Witness for C5 with the identity scaler, the two constant models of the
claim, both flags set, and an empty raw feature vector. -/
theorem C5_ensemble_mean_spec_witness :
    make_prediction_xg id [model_A, model_B] [true, true] [] = (3/2, 1) :=
  (C5_ensemble_mean_spec id [model_A, model_B] [true, true] []
    (by simp [selected_models])).2

/-! ### Feature extractor: `__calculate_last5_stats` -/

/-- Full-time score object of an upstream match payload
(`match['score']['fullTime']`). -/
structure FullTime where
  home : ℤ
  away : ℤ
deriving DecidableEq, Repr

/-- One entry of `team_data['matches']` as read by `__calculate_last5_stats`:
status string, the two team ids, and the full-time score. -/
structure HistMatch where
  status : String
  homeId : ℤ
  awayId : ℤ
  fullTime : FullTime
deriving DecidableEq, Repr

/-- Aggregate dictionary returned by `__calculate_last5_stats`. -/
@[ext]
structure TeamForm where
  points : ℤ
  goals_for : ℤ
  goals_against : ℤ
  wins : ℤ
  draws : ℤ
  losses : ℤ
deriving DecidableEq, Repr

/-- Goals scored by the inspected team in a match, by home/away role
(`gf` in the source). -/
def team_gf (team_id : ℤ) (m : HistMatch) : ℤ :=
  if m.homeId = team_id then m.fullTime.home else m.fullTime.away

/-- Goals conceded by the inspected team in a match, by home/away role
(`ga` in the source). -/
def team_ga (team_id : ℤ) (m : HistMatch) : ℤ :=
  if m.homeId = team_id then m.fullTime.away else m.fullTime.home

/-- One iteration of the accumulation loop of `__calculate_last5_stats`
(lines 356-377): skip non-finished matches, add goals for and against by
home/away role, then count a win (+3 points), a draw (+1 point) or a loss
(+0 points). -/
def stats_step (team_id : ℤ) (acc : TeamForm) (m : HistMatch) : TeamForm :=
  if m.status ≠ "FINISHED" then acc
  else if team_ga team_id m < team_gf team_id m then
    { acc with
      points := acc.points + 3
      wins := acc.wins + 1
      goals_for := acc.goals_for + team_gf team_id m
      goals_against := acc.goals_against + team_ga team_id m }
  else if team_gf team_id m = team_ga team_id m then
    { acc with
      points := acc.points + 1
      draws := acc.draws + 1
      goals_for := acc.goals_for + team_gf team_id m
      goals_against := acc.goals_against + team_ga team_id m }
  else
    { acc with
      losses := acc.losses + 1
      goals_for := acc.goals_for + team_gf team_id m
      goals_against := acc.goals_against + team_ga team_id m }

/-- Embedding of `PredictionModel.__calculate_last5_stats` (lines 345-386):
fold the accumulation loop over `team_data['matches']` starting from all
zeroes. -/
def calculate_last5_stats (team_id : ℤ) (ms : List HistMatch) : TeamForm :=
  ms.foldl (stats_step team_id) ⟨0, 0, 0, 0, 0, 0⟩

/-- Status filter used by the loop (`match['status'] != "FINISHED"`
skips). -/
def is_finished (m : HistMatch) : Bool := m.status == "FINISHED"

/-- Componentwise sum of two aggregates. -/
def addF (a b : TeamForm) : TeamForm :=
  ⟨a.points + b.points, a.goals_for + b.goals_for,
   a.goals_against + b.goals_against, a.wins + b.wins,
   a.draws + b.draws, a.losses + b.losses⟩

/-- Contribution of a single match to the aggregate. -/
def match_delta (team_id : ℤ) (m : HistMatch) : TeamForm :=
  stats_step team_id ⟨0, 0, 0, 0, 0, 0⟩ m

/-- One loop iteration adds the match's contribution to the accumulator. -/
theorem stats_step_addF (t : ℤ) (acc : TeamForm) (m : HistMatch) :
    stats_step t acc m = addF acc (match_delta t m) := by
  simp only [stats_step, match_delta, addF]
  by_cases hs : m.status ≠ "FINISHED"
  · rw [if_pos hs, if_pos hs]
    apply TeamForm.ext <;> simp
  · rw [if_neg hs, if_neg hs]
    by_cases h1 : team_ga t m < team_gf t m
    · rw [if_pos h1, if_pos h1]
      apply TeamForm.ext <;> simp
    · rw [if_neg h1, if_neg h1]
      by_cases h2 : team_gf t m = team_ga t m
      · rw [if_pos h2, if_pos h2]
        apply TeamForm.ext <;> simp
      · rw [if_neg h2, if_neg h2]
        apply TeamForm.ext <;> simp

/-- The fold is the accumulator plus the componentwise sums of the per-match
contributions. -/
theorem foldl_stats_eq (t : ℤ) (ms : List HistMatch) (acc : TeamForm) :
    ms.foldl (stats_step t) acc =
      ⟨acc.points + (ms.map fun m => (match_delta t m).points).sum,
       acc.goals_for + (ms.map fun m => (match_delta t m).goals_for).sum,
       acc.goals_against + (ms.map fun m => (match_delta t m).goals_against).sum,
       acc.wins + (ms.map fun m => (match_delta t m).wins).sum,
       acc.draws + (ms.map fun m => (match_delta t m).draws).sum,
       acc.losses + (ms.map fun m => (match_delta t m).losses).sum⟩ := by
  induction ms generalizing acc with
  | nil => simp
  | cons m ms ih =>
    rw [List.foldl_cons, ih, stats_step_addF t acc m]
    simp only [addF, List.map_cons, List.sum_cons, TeamForm.mk.injEq]
    refine ⟨?_, ?_, ?_, ?_, ?_, ?_⟩ <;> ring

/-- Order-independent closed form of the team-form aggregate: counts over the
finished matches only, goals by home/away role, 3 points per win and 1 per
draw and none per loss. -/
def form_spec (team_id : ℤ) (ms : List HistMatch) : TeamForm :=
  let fm := ms.filter is_finished
  let w : ℤ :=
    (fm.filter fun m => decide (team_ga team_id m < team_gf team_id m)).length
  let d : ℤ :=
    (fm.filter fun m => decide (team_gf team_id m = team_ga team_id m)).length
  let lo : ℤ :=
    (fm.filter fun m => decide (team_gf team_id m < team_ga team_id m)).length
  ⟨3 * w + d, (fm.map (team_gf team_id)).sum, (fm.map (team_ga team_id)).sum,
   w, d, lo⟩

/-- Summing a function over a filtered list is summing its guarded version
over the whole list. -/
theorem sum_map_filter_eq {α : Type} (p : α → Bool) (f : α → ℤ)
    (ms : List α) :
    ((ms.filter p).map f).sum = (ms.map fun m => if p m then f m else 0).sum := by
  induction ms with
  | nil => rfl
  | cons m ms ih =>
    by_cases h : p m <;> simp [h, ih]

/-- The length of a filtered list as a guarded integer sum. -/
theorem length_filter_eq_sum {α : Type} (p : α → Bool) (ms : List α) :
    (((ms.filter p).length : ℕ) : ℤ)
      = (ms.map fun m => if p m then (1 : ℤ) else 0).sum := by
  induction ms with
  | nil => rfl
  | cons m ms ih =>
    by_cases h : p m
    · simp [h, ih]
      omega
    · simp [h, ih]

/-- Per-match contribution, written against the spec-side helpers. -/
theorem match_delta_eval (t : ℤ) (m : HistMatch) :
    match_delta t m =
      if is_finished m then
        (if team_ga t m < team_gf t m then
          (⟨3, team_gf t m, team_ga t m, 1, 0, 0⟩ : TeamForm)
        else if team_gf t m = team_ga t m then
          ⟨1, team_gf t m, team_ga t m, 0, 1, 0⟩
        else ⟨0, team_gf t m, team_ga t m, 0, 0, 1⟩)
      else ⟨0, 0, 0, 0, 0, 0⟩ := by
  simp only [match_delta, stats_step]
  by_cases hf : m.status = "FINISHED"
  · have hfin : is_finished m = true := by simp [is_finished, hf]
    have hns : ¬ m.status ≠ "FINISHED" := by simp [hf]
    rw [if_neg hns, if_pos hfin]
    by_cases h1 : team_ga t m < team_gf t m
    · rw [if_pos h1, if_pos h1]
      apply TeamForm.ext <;> simp
    · rw [if_neg h1, if_neg h1]
      by_cases h2 : team_gf t m = team_ga t m
      · rw [if_pos h2, if_pos h2]
        apply TeamForm.ext <;> simp
      · rw [if_neg h2, if_neg h2]
        apply TeamForm.ext <;> simp
  · have hfin : ¬ is_finished m = true := by simp [is_finished, hf]
    have hs : m.status ≠ "FINISHED" := hf
    rw [if_pos hs, if_neg hfin]

/-- The closed form satisfies the same cons recurrence as the loop. -/
theorem form_spec_cons (t : ℤ) (m : HistMatch) (ms : List HistMatch) :
    form_spec t (m :: ms) = addF (match_delta t m) (form_spec t ms) := by
  rw [match_delta_eval]
  by_cases hf : is_finished m
  · rw [if_pos hf]
    by_cases h1 : team_ga t m < team_gf t m
    · have h2 : ¬ team_gf t m = team_ga t m := by omega
      have h3 : ¬ team_gf t m < team_ga t m := by omega
      rw [if_pos h1]
      apply TeamForm.ext <;>
        simp [form_spec, addF, List.filter_cons, hf, h1, h2, h3] <;>
        push_cast <;> ring
    · rw [if_neg h1]
      by_cases h2 : team_gf t m = team_ga t m
      · rw [if_pos h2]
        have h3 : ¬ team_gf t m < team_ga t m := by omega
        apply TeamForm.ext <;>
          simp [form_spec, addF, List.filter_cons, hf, h1, h2, h3] <;>
          push_cast <;> ring
      · rw [if_neg h2]
        have h3 : team_gf t m < team_ga t m := by omega
        apply TeamForm.ext <;>
          simp [form_spec, addF, List.filter_cons, hf, h1, h2, h3] <;>
          push_cast <;> ring
  · rw [if_neg hf]
    apply TeamForm.ext <;> simp [form_spec, addF, List.filter_cons, hf]

/-- The fold equals the order-independent closed form. -/
theorem calculate_eq_form_spec (t : ℤ) (ms : List HistMatch) :
    calculate_last5_stats t ms = form_spec t ms := by
  induction ms with
  | nil => rfl
  | cons m msr ih =>
    have hc : calculate_last5_stats t (m :: msr)
        = addF (match_delta t m) (calculate_last5_stats t msr) := by
      unfold calculate_last5_stats
      rw [List.foldl_cons, foldl_stats_eq, foldl_stats_eq]
      simp only [match_delta, addF, TeamForm.mk.injEq]
      refine ⟨?_, ?_, ?_, ?_, ?_, ?_⟩ <;> ring
    rw [hc, ih, ← form_spec_cons]

/-- The aggregate is invariant under permutation of the match collection. -/
theorem calculate_perm_invariant (t : ℤ) {ms1 ms2 : List HistMatch}
    (h : ms1.Perm ms2) :
    calculate_last5_stats t ms1 = calculate_last5_stats t ms2 := by
  unfold calculate_last5_stats
  rw [foldl_stats_eq, foldl_stats_eq]
  have hs : ∀ f : HistMatch → ℤ, (ms1.map f).sum = (ms2.map f).sum :=
    fun f => List.Perm.sum_eq (h.map f)
  simp [hs]

/-- C7: the team-form aggregate is the same for any permutation of the match
collection, counts only matches with FINISHED status, determines goals
for/against by the team's home or away role, and awards 3 points per win,
1 per draw, and 0 per loss (the closed form `form_spec` states exactly
that). -/
theorem C7_team_form_spec (t : ℤ) (ms1 ms2 : List HistMatch)
    (hperm : ms1.Perm ms2) :
    calculate_last5_stats t ms1 = calculate_last5_stats t ms2 ∧
    calculate_last5_stats t ms1 = form_spec t ms1 :=
  ⟨calculate_perm_invariant t hperm, calculate_eq_form_spec t ms1⟩

/-- Concrete finished match for the C7 witness: team 1 wins 2-0 at home. -/
def c7_match_win : HistMatch := ⟨"FINISHED", 1, 2, ⟨2, 0⟩⟩

/-- Concrete finished match for the C7 witness: team 1 draws 1-1 away. -/
def c7_match_draw : HistMatch := ⟨"FINISHED", 3, 1, ⟨1, 1⟩⟩

/-- Witness for C7 at a two-match history and its transposition. -/
theorem C7_team_form_spec_witness :
    calculate_last5_stats 1 [c7_match_win, c7_match_draw]
      = calculate_last5_stats 1 [c7_match_draw, c7_match_win] ∧
    calculate_last5_stats 1 [c7_match_win, c7_match_draw]
      = form_spec 1 [c7_match_win, c7_match_draw] :=
  C7_team_form_spec 1 [c7_match_win, c7_match_draw]
    [c7_match_draw, c7_match_win]
    (List.Perm.swap c7_match_draw c7_match_win [])

end XGoalPro
